import Mathlib

/-!
Verification of the wanikani_api caching client (src/wanikani_api/api.py)
against its natural-language specification.

Shallow embedding conventions:
* Python/JSON values are modelled by the inductive `PyVal`.  Python `datetime`
  instants are abstracted to integer seconds (`PyVal.dt`); `datetime.isoformat`
  becomes the injective encoding `isoformat := toString` and `urllib.parse.quote`
  is the identity on that encoding (no claim depends on the concrete characters
  of a serialized timestamp, only on which fragments appear and on equality of
  instants).
* Python `dict`s are insertion-ordered association lists; assignment to a key
  replaces the value in place when present and appends otherwise (`dictSet`),
  matching CPython semantics.
* The MongoDB collections are lists of documents; `find_one` / `find` /
  `update_one` (with and without `upsert=True`) are given executable semantics
  for the operator subset the program uses (`$in`, `$gte`, `$lte`, `$gt`, `$lt`,
  `$ne`, null, and plain equality).  A pymongo `find` is lazy: the returned
  cursor is modelled as the filter itself (`CacheRes.cursor`) and is evaluated
  against a store by `observeCached`; `find_one` is eager.
* Network traffic is scripted: each loop iteration of a request walk consumes
  one `(now, response)` pair from a trace list.
-/

set_option autoImplicit false

namespace Wanikani

/-- Model of the Python/JSON values the client manipulates.  `dt` is a
`datetime` instant in abstract integer seconds; `typeObj s` is a Python type
object such as `int` (which the source accidentally puts in a list at
`_ids_updated_after_request`); `pySet` is a Python set literal (which the
source accidentally uses as a filter value there). -/
inductive PyVal where
  | none
  | bool (b : Bool)
  | int (n : Int)
  | str (s : String)
  | dt (t : Int)
  | list (xs : List PyVal)
  | dict (kvs : List (String × PyVal))
  | typeObj (s : String)
  | pySet (xs : List PyVal)
  deriving Repr, Inhabited

mutual

/-- Boolean equality on `PyVal`. -/
def PyVal.beq : PyVal → PyVal → Bool
  | .none, .none => true
  | .bool a, .bool b => a == b
  | .int a, .int b => a == b
  | .str a, .str b => a == b
  | .dt a, .dt b => a == b
  | .list a, .list b => PyVal.beqList a b
  | .dict a, .dict b => PyVal.beqKvs a b
  | .typeObj a, .typeObj b => a == b
  | .pySet a, .pySet b => PyVal.beqList a b
  | _, _ => false

/-- Pointwise `PyVal.beq` on lists. -/
def PyVal.beqList : List PyVal → List PyVal → Bool
  | [], [] => true
  | a :: as, b :: bs => PyVal.beq a b && PyVal.beqList as bs
  | _, _ => false

/-- Pointwise `PyVal.beq` on key-value lists. -/
def PyVal.beqKvs : List (String × PyVal) → List (String × PyVal) → Bool
  | [], [] => true
  | (k, a) :: as, (l, b) :: bs => k == l && PyVal.beq a b && PyVal.beqKvs as bs
  | _, _ => false

end

instance : BEq PyVal := ⟨PyVal.beq⟩

/-- Python truthiness for the values that flow into `while url:` — `None` and
the empty string are falsy, a nonempty string is truthy. -/
def pyTruthy : PyVal → Bool
  | .none => false
  | .str s => !(s.isEmpty)
  | .bool b => b
  | .int n => n != 0
  | .list xs => !xs.isEmpty
  | .dict kvs => !kvs.isEmpty
  | .dt _ => true
  | .typeObj _ => true
  | .pySet xs => !xs.isEmpty

/-- Whether the value is a Python `int` (the `type(x) is int` test; `bool` is a
distinct type in that test, exactly as in CPython where `type(True) is int` is
false). -/
def PyVal.isInt : PyVal → Bool
  | .int _ => true
  | _ => false

/-- Whether the value is Python `None`. -/
def PyVal.isNone : PyVal → Bool
  | .none => true
  | _ => false

/-- Whether the value is a Python `str`. -/
def PyVal.isStr : PyVal → Bool
  | .str _ => true
  | _ => false

/-- Whether the value is a Python `bool`. -/
def PyVal.isBool : PyVal → Bool
  | .bool _ => true
  | _ => false

/-- Lookup in an insertion-ordered dict. -/
def dictGet (kvs : List (String × PyVal)) (k : String) : Option PyVal :=
  match kvs with
  | [] => Option.none
  | (l, v) :: rest => if l == k then some v else dictGet rest k

/-- Lookup on a `PyVal.dict`, other values have no items. -/
def PyVal.get : PyVal → String → Option PyVal
  | .dict kvs, k => dictGet kvs k
  | _, _ => Option.none

/-- Python dict assignment: replace in place when the key exists, append
otherwise. -/
def dictSet (kvs : List (String × PyVal)) (k : String) (v : PyVal) : List (String × PyVal) :=
  match kvs with
  | [] => [(k, v)]
  | (l, w) :: rest => if l == k then (l, v) :: rest else (l, w) :: dictSet rest k v

/-- Python membership test `k in kwargs` on a dict given as a key-value list. -/
def dictHasKey (kvs : List (String × PyVal)) (k : String) : Bool :=
  match kvs with
  | [] => false
  | (l, _) :: rest => l == k || dictHasKey rest k

/-- Character-list prefix test (used to implement the Python substring test). -/
def charsStartWith : List Char → List Char → Bool
  | [], _ => true
  | _ :: _, [] => false
  | p :: ps, c :: cs => p == c && charsStartWith ps cs

/-- Character-list substring test. -/
def charsHaveSub (pat : List Char) : List Char → Bool
  | [] => charsStartWith pat []
  | c :: cs => charsStartWith pat (c :: cs) || charsHaveSub pat cs

/-- The Python substring test `pat in s`. -/
def strContains (s pat : String) : Bool :=
  charsHaveSub pat.toList s.toList

/-- Prefix test on strings via their character lists (kernel-computable). -/
def strStartsWith (s pre : String) : Bool :=
  charsStartWith pre.data s.data

/-- Suffix test on strings via their character lists (kernel-computable). -/
def strEndsWith (s suf : String) : Bool :=
  charsStartWith suf.data.reverse s.data.reverse

/-- Python `s[0:-1]`: drop the final character. -/
def strDropLast (s : String) : String :=
  ⟨s.data.dropLast⟩

/-- Split a dotted field path into its components (kernel-computable
counterpart of splitting on the dot character). -/
def splitPathAux : List Char → List Char → List String
  | acc, [] => [⟨acc.reverse⟩]
  | acc, c :: cs =>
      if c == '.' then ⟨acc.reverse⟩ :: splitPathAux [] cs
      else splitPathAux (c :: acc) cs

/-- The components of a dotted MongoDB field path. -/
def splitPath (s : String) : List String :=
  splitPathAux [] s.data

/-- Drop every occurrence of the character Z, as the source does with
`.replace("Z", "")` before parsing a wire timestamp. -/
def stripZ (s : String) : String :=
  ⟨s.data.filter (fun c => !(c == 'Z'))⟩

/-- Accumulate decimal digits; anything that is not a digit invalidates the
parse. -/
def natOfDigits : Option Nat → List Char → Option Nat
  | acc, [] => acc
  | acc, c :: cs =>
      if 48 ≤ c.toNat && c.toNat ≤ 57 then
        natOfDigits (some ((acc.getD 0) * 10 + (c.toNat - 48))) cs
      else Option.none

/-- Parse an optionally signed decimal integer (kernel-computable counterpart
of `String.toInt?` on the `isoformat` image). -/
def intOfString (s : String) : Option Int :=
  match s.data with
  | [] => Option.none
  | c :: cs =>
      if c == '-' then (natOfDigits Option.none cs).map (fun n => -(n : Int))
      else (natOfDigits Option.none (c :: cs)).map (fun n => (n : Int))

/-- Abstraction of `datetime.isoformat`: an injective encoding of the abstract
instant. -/
def isoformat (t : Int) : String := toString t

/-- Abstraction of `urllib.parse.quote` on the abstract `isoformat` encoding
(identity, since the encoding contains no characters needing escapes). -/
def quote (s : String) : String := s

/-- Abstraction of `datetime.fromisoformat` composed with the `.replace("Z", "")`
the source applies first; inverse of `isoformat` on its image. -/
def fromisoformat (s : String) : Int :=
  (intOfString (stripZ s)).getD 0

/-- The apostrophe character, used by `str` on a Python type object. -/
def tick : String := String.singleton (Char.ofNat 39)

/-- Python `str(x)` for the values the source serializes into query strings. -/
def pyStr : PyVal → String
  | .int n => toString n
  | .str s => s
  | .bool b => if b then "True" else "False"
  | .dt t => isoformat t
  | .typeObj s => "<class " ++ tick ++ s ++ tick ++ ">"
  | _ => ""

/-- Python `','.join(str(x) for x in xs)`. -/
def commaJoin (xs : List PyVal) : String :=
  String.intercalate "," (xs.map pyStr)

/-! ## RateLimiter (api.py lines 40-56)

State: a deque of request timestamps, oldest first; timestamps are abstract
integer seconds and `timedelta(minutes=1)` is 60. -/

/-- The sliding-window deque of `RateLimiter`. -/
structure RateLimiter where
  requests : List Int
  deriving Repr, DecidableEq

/-- The `while self.requests and now - self.requests[0] > timedelta(minutes=1):
self.requests.popleft()` loop: drop timestamps strictly older than 60 seconds
from the front, stopping at the first survivor. -/
def dropOld (now : Int) : List Int → List Int
  | [] => []
  | t :: rest => if now - t > 60 then dropOld now rest else t :: rest

/-- `RateLimiter.can_request` (api.py lines 44-51): drop old timestamps from the
front; if 3 or more remain return `false` without consuming a slot, else append
`now` and return `true`. -/
def RateLimiter.can_request (rl : RateLimiter) (now : Int) : Bool × RateLimiter :=
  let reqs := dropOld now rl.requests
  if reqs.length ≥ 3 then (false, ⟨reqs⟩)
  else (true, ⟨reqs ++ [now]⟩)

/-- `RateLimiter.sleep_until_can_request` (api.py lines 53-56): re-check
`can_request`; when still blocked, sleep until the oldest timestamp ages out.
Returns the wall-clock instant at which control returns to the caller together
with the limiter state; note that the blocked branch does NOT append a
timestamp. -/
def RateLimiter.sleep_until_can_request (rl : RateLimiter) (now : Int) : Int × RateLimiter :=
  match rl.can_request now with
  | (true, rl1) => (now, rl1)
  | (false, rl1) =>
      let until_ := (rl1.requests.headD 0 + 60) - now
      (now + until_, rl1)

/-- The gate `_do_requests` runs before each network request (api.py lines
630-637): `if not can_request(): sleep_until_can_request()`, then the request is
issued unconditionally.  Returns the instant at which the request is issued and
the limiter state afterwards. -/
def gateAndIssue (rl : RateLimiter) (now : Int) : Int × RateLimiter :=
  match rl.can_request now with
  | (true, rl1) => (now, rl1)
  | (false, rl1) => rl1.sleep_until_can_request now

/-- Run a sequence of gated requests at the given attempt instants, collecting
the instants at which requests are actually issued. -/
def runGated (rl : RateLimiter) : List Int → List Int × RateLimiter
  | [] => ([], rl)
  | now :: rest =>
      let (t, rl1) := gateAndIssue rl now
      let (ts, rl2) := runGated rl1 rest
      (t :: ts, rl2)

/-- Run a sequence of bare `can_request` calls at the given instants,
collecting the returned booleans. -/
def runCanRequest (rl : RateLimiter) : List Int → List Bool × RateLimiter
  | [] => ([], rl)
  | now :: rest =>
      let (b, rl1) := rl.can_request now
      let (bs, rl2) := runCanRequest rl1 rest
      (b :: bs, rl2)

/-! ## Document store (pymongo collections, the operator subset the client uses) -/

/-- Whether a key is a MongoDB operator key. -/
def isOpKey (k : String) : Bool := strStartsWith k "$"

/-- Comparison used by `$gte` / `$lte` (defined on like-typed numbers and
instants, as the client only compares those). -/
def pyLe (a b : PyVal) : Bool :=
  match a, b with
  | .int x, .int y => x ≤ y
  | .dt x, .dt y => x ≤ y
  | _, _ => false

/-- Strict comparison used by `$gt` / `$lt`. -/
def pyLt (a b : PyVal) : Bool :=
  match a, b with
  | .int x, .int y => x < y
  | .dt x, .dt y => x < y
  | _, _ => false

/-- Evaluate one MongoDB operator against a (possibly missing) field value. -/
def evalOp (op : String) (arg : PyVal) (v : Option PyVal) : Bool :=
  match op with
  | "$in" =>
      (match v, arg with
       | some x, .list ys => ys.any (fun y => PyVal.beq x y)
       | _, _ => false)
  | "$gte" => (match v with | some x => pyLe arg x | _ => false)
  | "$lte" => (match v with | some x => pyLe x arg | _ => false)
  | "$gt" => (match v with | some x => pyLt arg x | _ => false)
  | "$lt" => (match v with | some x => pyLt x arg | _ => false)
  | "$ne" =>
      (match v with
       | some x => !(PyVal.beq x arg)
       | Option.none => !(PyVal.beq .none arg))
  | _ => false

/-- Evaluate one filter condition (operator document, null, or plain equality)
against a possibly missing field value; null matches both a null field and a
missing field, as in MongoDB. -/
def matchCond (v : Option PyVal) (cond : PyVal) : Bool :=
  match cond with
  | .dict kvs =>
      if !kvs.isEmpty && kvs.all (fun kv => isOpKey kv.1) then
        kvs.all (fun kv => evalOp kv.1 kv.2 v)
      else
        (match v with | some x => PyVal.beq x (.dict kvs) | Option.none => false)
  | .none => (match v with | some x => PyVal.beq x .none | Option.none => true)
  | c => (match v with | some x => PyVal.beq x c | Option.none => false)

/-- Navigate a dotted field path into nested documents. -/
def getPath (doc : PyVal) : List String → Option PyVal
  | [] => some doc
  | k :: rest =>
      match doc.get k with
      | some v => getPath v rest
      | Option.none => Option.none

/-- Whether a document matches a MongoDB filter (conjunction over its
conditions, each applied to a dotted field path). -/
def matchFilter (doc : PyVal) (f : List (String × PyVal)) : Bool :=
  f.all fun kv => matchCond (getPath doc (splitPath kv.1)) kv.2

/-- The result of a lazy `find`: every matching document in store order. -/
def findDocs (docs : List PyVal) (f : List (String × PyVal)) : List PyVal :=
  docs.filter (fun d => matchFilter d f)

/-- The result of an eager `find_one`: the first matching document, or Python
`None` when nothing matches. -/
def findOne (docs : List PyVal) (f : List (String × PyVal)) : PyVal :=
  match docs.find? (fun d => matchFilter d f) with
  | some d => d
  | Option.none => .none

/-- Apply a `$set` update: merge the top-level keys of `s` into the document. -/
def applySet (doc : PyVal) (s : PyVal) : PyVal :=
  match doc, s with
  | .dict kvs, .dict skvs => .dict (skvs.foldl (fun acc kv => dictSet acc kv.1 kv.2) kvs)
  | _, _ => doc

/-- The plain-equality fields of a filter, used by MongoDB to seed the document
inserted by an upsert that matched nothing. -/
def eqFields (f : List (String × PyVal)) : List (String × PyVal) :=
  f.filter fun kv =>
    match kv.2 with
    | .dict kvs => !(!kvs.isEmpty && kvs.all (fun p => isOpKey p.1))
    | _ => true

/-- Update the first matching document in place; `Option.none` when no document
matches. -/
def updateOneGo (f : List (String × PyVal)) (s : PyVal) : List PyVal → Option (List PyVal)
  | [] => Option.none
  | d :: rest =>
      if matchFilter d f then some (applySet d s :: rest)
      else
        match updateOneGo f s rest with
        | some rest2 => some (d :: rest2)
        | Option.none => Option.none

/-- `collection.update_one(f, {"$set": s}, upsert)`: update the first matching
document; when none matches, insert a fresh document built from the filter's
equality fields and the `$set` fields if `upsert` is set, else do nothing. -/
def updateOne (docs : List PyVal) (f : List (String × PyVal)) (s : PyVal) (upsert : Bool) :
    List PyVal :=
  match updateOneGo f s docs with
  | some docs2 => docs2
  | Option.none => if upsert then docs ++ [applySet (.dict (eqFields f)) s] else docs

/-- `collection.insert_one`. -/
def insertOne (docs : List PyVal) (d : PyVal) : List PyVal :=
  docs ++ [d]

/-- The stores the engine touches: the per-user document/watermark collection
(`_personal_cache`) and the validator collection (`_etag_db`). -/
structure Store where
  personalCache : List PyVal
  etagDb : List PyVal
  deriving Repr

/-! ## Error taxonomy (api.py lines 16-37, 59-64) -/

/-- Exceptions the embedded code can raise.  `noResponse` marks a scripted
trace that ended while the page walk still wanted a page (the real client
would block on the network there). -/
inductive PyError where
  | rateLimit
  | invalidToken
  | requestError (code : Int)
  | attributeError (msg : String)
  | typeError (msg : String)
  | assertionError
  | noResponse
  deriving Repr, DecidableEq

/-- The argument actually passed to `_raise_error`: the urllib3 response object
at the write endpoints, but the bare integer `request.status` at the read
endpoints (`_do_requests`, `get_subjects`, `get_summary`, `get_user`,
`update_user`). -/
inductive ErrArg where
  | response (status : Int)
  | statusInt (n : Int)

/-- Reading the `.status` attribute of the argument, which is what
`_raise_error` does first; an `int` has no such attribute. -/
def getStatusAttr : ErrArg → Except PyError Int
  | .response s => .ok s
  | .statusInt _ => .error (.attributeError "int object has no attribute status")

/-- `_raise_error` (api.py lines 59-64): 429 → rate-limit error, 401/403 →
invalid-token error, anything else → generic request error carrying the code;
but the very first attribute access fails when an `int` was passed. -/
def raise_error (request : ErrArg) : PyError :=
  match getStatusAttr request with
  | .error e => e
  | .ok s =>
      if s == 429 then .rateLimit
      else if s == 403 || s == 401 then .invalidToken
      else .requestError s

/-! ## Date normalization (`_convert_dates`, api.py lines 745-750) -/

/-- Isoformat rendering of an instant value (the `.isoformat()` calls in the
source are always applied to a parsed datetime). -/
def pyIso : PyVal → String
  | .dt t => isoformat t
  | _ => ""

/-- Parse one wire timestamp string (the source strips a trailing "Z" first);
values that are already parsed are left unchanged. -/
def convertOne : PyVal → PyVal
  | .str s => .dt (fromisoformat s)
  | v => v

/-- `_convert_dates`: replace `data_updated_at` and every non-null `data` field
whose key ends in `_at` by its parsed instant. -/
def convertDates (obj : PyVal) : PyVal :=
  match obj with
  | .dict kvs =>
      let kvs1 :=
        match dictGet kvs "data_updated_at" with
        | some v => dictSet kvs "data_updated_at" (convertOne v)
        | Option.none => kvs
      let kvs2 :=
        match dictGet kvs1 "data" with
        | some (.dict dkvs) =>
            dictSet kvs1 "data" (.dict (dkvs.map fun kv =>
              if strEndsWith kv.1 "_at" && !(PyVal.beq kv.2 .none) then (kv.1, convertOne kv.2) else kv))
        | _ => kvs1
      .dict kvs2
  | v => v

/-! ## QueryCompiler (`_parse_query_parameters`, api.py lines 678-743)

The static method mutates `url_params` and `filter_params` while iterating the
keyword arguments in insertion order; `datetime.now()` is the ambient instant
`now`. -/

/-- Process one `(param, value)` pair of the keyword-argument loop body. -/
def processParam (is_assignment : Bool) (kwargs : List (String × PyVal)) (now : Int)
    (acc : List String × List (String × PyVal)) (pv : String × PyVal) :
    List String × List (String × PyVal) :=
  let (up, fp) := acc
  let param := pv.1
  let value := pv.2
  if value.isNone then (up, fp)
  else if param == "immediately_available_for_lessons" then
    (up ++ [param],
     dictSet (dictSet fp "data.unlocked_at" (.dict [("$lte", .dt now)])) "data.started_at" .none)
  else if param == "immediately_available_for_review" then
    (up ++ [param], dictSet fp "data.available_at" (.dict [("$lte", .dt now)]))
  else if param == "in_review" then
    (up ++ [param], dictSet fp "data.available_at" (.dict [("$ne", .none)]))
  else if strContains param "before" || strContains param "after" then
    let value := match value with | .str s => PyVal.dt (fromisoformat s) | v => v
    let up := up ++ [param ++ "=" ++ quote (pyIso value)]
    if param == "updated_after" then
      (up, dictSet fp "data_updated_at" (.dict [("$gte", value)]))
    else if dictHasKey kwargs "available_before" && dictHasKey kwargs "updated_after" then
      let after := (dictGet kwargs "available_after").getD .none
      let before := (dictGet kwargs "available_before").getD .none
      let pa := match after with | .str s => PyVal.dt (fromisoformat s) | v => v
      let pb := match before with | .str s => PyVal.dt (fromisoformat s) | v => v
      (up, dictSet fp "data.available_at" (.dict [("$gte", pa), ("$lte", pb)]))
    else if param == "available_after" then
      (up, dictSet fp "data.available_at" (.dict [("$gte", value)]))
    else if param == "available_before" then
      (up, dictSet fp "data.available_at" (.dict [("$lte", value)]))
    else (up, fp)
  else if strContains param "percentage" then
    if dictHasKey kwargs "percentages_greater_than" && dictHasKey kwargs "percentages_less_than" then
      let upper := (dictGet kwargs "percentages_less_than").getD .none
      let lower := (dictGet kwargs "percentages_greater_than").getD .none
      (up, dictSet fp "data.percentage_correct" (.dict [("$gt", lower), ("$lt", upper)]))
    else if param == "percentages_less_than" then
      (up, dictSet fp "data.percentage_correct"
        (.dict [("$lt", (dictGet kwargs "percentages_less_than").getD .none)]))
    else if param == "percentages_greater_than" then
      (up, dictSet fp "data.percentage_correct"
        (.dict [("$gt", (dictGet kwargs "percentages_greater_than").getD .none)]))
    else (up, fp)
  else
    let value := if value.isStr || value.isInt then PyVal.list [value] else value
    match value with
    | .bool b =>
        let up := up ++ [param ++ "=" ++ (if b then "true" else "false")]
        if is_assignment then
          (up, dictSet fp ("data." ++ param ++ "_at") (if b then .dict [("$ne", .none)] else .none))
        else
          (up, dictSet fp ("data." ++ param) (.bool b))
    | v =>
        let xs := match v with | .list l => l | _ => []
        let up := up ++ [param ++ "=" ++ commaJoin xs]
        if param == "ids" then (up, dictSet fp "id" (.dict [("$in", .list xs)]))
        else if !(param == "levels") then
          (up, dictSet fp ("data." ++ strDropLast param) (.dict [("$in", .list xs)]))
        else (up, fp)

/-- `_parse_query_parameters`: fold the loop body over the keyword arguments in
insertion order, threading the two accumulators. -/
def parseQueryParameters (url_params : List String) (filter_params : List (String × PyVal))
    (is_assignment : Bool) (now : Int) (kwargs : List (String × PyVal)) :
    List String × List (String × PyVal) :=
  kwargs.foldl (processParam is_assignment kwargs now) (url_params, filter_params)

/-! ## PaginatedFetcher (`_do_requests`, api.py lines 612-676)

Network traffic is scripted: each loop iteration consumes one
`(now, response)` pair.  A pymongo `find` cursor is lazy, so the `cached`
value for a non-singular request is carried as its filter and only evaluated
against a store when the caller consumes it (`observeCached`). -/

/-- A scripted HTTP response. -/
structure HResp where
  status : Int
  headers : List (String × String)
  body : PyVal
  deriving Repr

/-- The `cached` local result computed before the request: an eager `find_one`
document for a singular lookup, a lazy `find` cursor otherwise, or Python
`None` when a cache-invalidating parameter was present. -/
inductive CacheRes where
  | one (doc : PyVal)
  | cursor (f : List (String × PyVal))
  | pynone
  deriving Repr

/-- Evaluate a cached result against a store (iterating the lazy cursor). -/
def observeCached : CacheRes → List PyVal → PyVal
  | .one d, _ => d
  | .cursor f, docs => .list (findDocs docs f)
  | .pynone, _ => .none

/-- What a request walk hands back to the caller. -/
inductive ReqResult where
  | doc (d : PyVal)
  | items (xs : List PyVal)
  | cached (c : CacheRes)
  deriving Repr

/-- Evaluate a request result against the store it is consumed over. -/
def observeResult : ReqResult → List PyVal → PyVal
  | .doc d, _ => d
  | .items xs, _ => .list xs
  | .cached c, docs => observeCached c docs

/-- `_get_header` plus `_get_etag_for_url` (api.py lines 525-531, 546-549):
build request headers, attaching stored validators for this exact URL. -/
def getHeader (st : Store) (uid : String) (url : String) : List (String × String) :=
  let headers := [("Authorization", "Bearer token")]
  match findOne st.etagDb [("uid", PyVal.str uid), ("url", PyVal.str url)] with
  | PyVal.none => headers
  | d =>
      headers ++
        [("If-Modified-Since", match d.get "Last-Modified" with | some (.str s) => s | _ => ""),
         ("If-None-Match", match d.get "ETag" with | some (.str s) => s | _ => "")]

/-- `_set_etag` (api.py lines 533-544): upsert the validator record keyed by
(user, url) when the response carried both headers; a missing header aborts
silently before anything is written. -/
def setEtag (st : Store) (uid : String) (url : String) (headers : List (String × String)) : Store :=
  match headers.lookup "Last-Modified", headers.lookup "ETag" with
  | some lm, some et =>
      { st with etagDb := (updateOne st.etagDb [("uid", .str uid), ("url", .str url)]
          (.dict [("uid", .str uid), ("url", .str url),
                  ("Last-Modified", .str lm), ("ETag", .str et)]) true) }
  | _, _ => st

/-- The post-loop persistence of `_do_requests` (api.py lines 661-676), run
once the `while url:` condition turns false: every accumulated item is
upserted keyed by (resource type, id), then the watermark is upserted with the
filter `{"object": "url_update"}` — exactly the filter the source uses, which
does not mention the url.  The final return value is
`data_out if is_singular else cached` (api.py line 676). -/
def doRequestsFinish (cached : CacheRes) (request_type url_without_update_date : String)
    (is_singular : Bool) (wmNow : Int) (data_out : List PyVal) (st : Store)
    (rl : RateLimiter) : Except (PyError × Store) (ReqResult × Store × RateLimiter) :=
  let st1 := data_out.foldl (fun s item =>
      let item1 := convertDates item
      { s with personalCache := (updateOne s.personalCache
          [("object", .str request_type), ("id", (item1.get "id").getD .none)] item1 true) }) st
  let st2 := { st1 with personalCache := (updateOne st1.personalCache
      [("object", .str "url_update")]
      (.dict [("object", .str "url_update"), ("url", .str url_without_update_date),
              ("date", .dt wmNow)]) true) }
  .ok (if is_singular then .items data_out else .cached cached, st2, rl)

/-- The `while url:` loop of `_do_requests` (api.py lines 627-660).  Each
iteration consumes one scripted `(now, response)` pair; when the url turns
falsy (the final page's `next_url` was null) the loop exits into
`doRequestsFinish`. -/
def doRequestsLoop (cached : CacheRes) (request_type url_without_update_date : String)
    (is_singular can_use_cache : Bool) (uid : String) (wmNow : Int)
    (data_out : List PyVal) (url : PyVal) (st : Store) (rl : RateLimiter) :
    List (Int × HResp) → Except (PyError × Store) (ReqResult × Store × RateLimiter)
  | [] =>
      if pyTruthy url then .error (.noResponse, st)
      else doRequestsFinish cached request_type url_without_update_date is_singular
        wmNow data_out st rl
  | (now, resp) :: rest =>
      if pyTruthy url then
        let urlS := pyStr url
        let _headers := getHeader st uid urlS
        let (_, rl1) := gateAndIssue rl now
        if resp.status ≥ 400 then .error (raise_error (.statusInt resp.status), st)
        else if resp.status == 304 then .ok (.cached cached, st, rl1)
        else
          let data := resp.body
          let st1 := if can_use_cache then setEtag st uid urlS resp.headers else st
          match data.get "pages" with
          | some pages =>
              let pageItems := match data.get "data" with | some (.list xs) => xs | _ => []
              let nextUrl := (pages.get "next_url").getD .none
              doRequestsLoop cached request_type url_without_update_date is_singular
                can_use_cache uid wmNow (data_out ++ pageItems) nextUrl st1 rl1 rest
          | Option.none =>
              let data1 := convertDates data
              let st2 := { st1 with personalCache := (updateOne st1.personalCache
                  [("object", .str request_type), ("id", (data1.get "id").getD .none)] data1 true) }
              .ok (.doc data1, st2, rl1)
      else
        doRequestsFinish cached request_type url_without_update_date is_singular
          wmNow data_out st rl

/-- The canonical URL of a request family: the request URL without the
automatically appended `updated_after` parameter (api.py lines 615-616). -/
def urlWithoutUpdateDate (base_url : String) (url_params : List String) : String :=
  base_url ++ (if url_params.isEmpty then "" else "?") ++ String.intercalate "&" url_params

/-- The watermark read of `_do_requests` (api.py lines 618-623): look up the
`url_update` record for this canonical URL family and, when one exists, append
an `updated_after` fragment carrying its date. -/
def watermarkParams (st : Store) (base_url : String) (url_params : List String) :
    List String :=
  let updated_after := findOne st.personalCache
    [("object", .str "url_update"), ("url", .str (urlWithoutUpdateDate base_url url_params))]
  if pyTruthy updated_after then
    url_params ++ ["updated_after=" ++ quote (pyIso ((updated_after.get "date").getD .none))]
  else url_params

/-- `_do_requests` (api.py lines 612-626 and the loop): compute the canonical
URL without the updated-after parameter, read the watermark for it and append
an `updated_after` fragment when one exists, then run the page walk. -/
def doRequests (cached : CacheRes) (request_type base_url : String)
    (url_params : List String) (is_singular : Bool) (can_use_cache : Bool)
    (uid : String) (wmNow : Int) (st : Store) (rl : RateLimiter)
    (trace : List (Int × HResp)) : Except (PyError × Store) (ReqResult × Store × RateLimiter) :=
  let url_without_update_date := urlWithoutUpdateDate base_url url_params
  let url_params := watermarkParams st base_url url_params
  let params_string := String.intercalate "&" url_params
  let url := base_url ++ (if url_params.isEmpty then "" else "?") ++ params_string
  doRequestsLoop cached request_type url_without_update_date is_singular can_use_cache
    uid wmNow [] (.str url) st rl trace

/-- The items carried by a pagination-envelope response (`data["data"]`). -/
def pageItems (resp : HResp) : List PyVal :=
  match resp.body.get "data" with
  | some (.list xs) => xs
  | _ => []

/-- The next-page url of a pagination-envelope response
(`data["pages"]["next_url"]`). -/
def pageNext (resp : HResp) : PyVal :=
  match resp.body.get "pages" with
  | some pages => (pages.get "next_url").getD .none
  | Option.none => .none

/-- Whether a response is one successful page of a walk: not an error status,
not a 304, and carrying a pagination envelope. -/
def isWalkPage (r : HResp) : Bool :=
  !(decide (r.status ≥ 400)) && !(r.status == 304) && (r.body.get "pages").isSome

/-- A scripted trace forming one complete page walk: every response is a
successful page, every page before the last names a truthy next url, and the
final page's next url is falsy (the walk terminates). -/
def fullWalk : List (Int × HResp) → Bool
  | [] => false
  | (_, r) :: rest =>
      isWalkPage r &&
      (match rest with
       | [] => !(pyTruthy (pageNext r))
       | _ :: _ => pyTruthy (pageNext r) && fullWalk rest)

/-- All items accumulated over a page walk, in page order. -/
def walkItems (trace : List (Int × HResp)) : List PyVal :=
  (trace.map (fun p => pageItems p.2)).flatten

/-- The cacheability test of `_complex_request` (api.py lines 598-603): none of
the four cache-invalidating parameters may be present with a non-null value. -/
def canUseCacheCheck (kwargs : List (String × PyVal)) : Bool :=
  (!(dictHasKey kwargs "levels") || ((dictGet kwargs "levels").getD .none).isNone) &&
  (!(dictHasKey kwargs "immediately_available_for_lessons") ||
    ((dictGet kwargs "immediately_available_for_lessons").getD .none).isNone) &&
  (!(dictHasKey kwargs "immediately_available_for_review") ||
    ((dictGet kwargs "immediately_available_for_review").getD .none).isNone) &&
  (!(dictHasKey kwargs "in_review") || ((dictGet kwargs "in_review").getD .none).isNone)

/-- The `url_params` produced by the `_parse_query_parameters` call inside
`_complex_request`. -/
def complexUrlParams (request_type : String) (now : Int) (kwargs : List (String × PyVal)) :
    List String :=
  (parseQueryParameters [] [("object", .str request_type)]
    (request_type == "assignment") now kwargs).1

/-- The `filter_args` produced by the `_parse_query_parameters` call inside
`_complex_request`. -/
def complexFilterArgs (request_type : String) (now : Int) (kwargs : List (String × PyVal)) :
    List (String × PyVal) :=
  (parseQueryParameters [] [("object", .str request_type)]
    (request_type == "assignment") now kwargs).2

/-- The singularity test of `_complex_request` (api.py line 590). -/
def complexIsSingular (request_type : String) (now : Int) (kwargs : List (String × PyVal)) :
    Bool :=
  dictHasKey kwargs "ids" && ((dictGet kwargs "ids").getD .none).isInt &&
    (complexUrlParams request_type now kwargs).length == 1

/-- The pre-request local result of `_complex_request` (api.py lines 597-608):
an eager point lookup for a singular lookup, a lazy filtered scan otherwise,
and Python `None` when a cache-invalidating parameter is present. -/
def complexCached (request_type : String) (now : Int) (kwargs : List (String × PyVal))
    (st : Store) : CacheRes :=
  if canUseCacheCheck kwargs then
    if complexIsSingular request_type now kwargs then
      CacheRes.one (findOne st.personalCache (complexFilterArgs request_type now kwargs))
    else CacheRes.cursor (complexFilterArgs request_type now kwargs)
  else CacheRes.pynone

/-- `_complex_request` (api.py lines 581-610): compile the query, decide
singularity and cacheability, compute the pre-request local result, and run
the page walk. -/
def complexRequest (request_type : String) (kwargs : List (String × PyVal)) (now : Int)
    (uid : String) (wmNow : Int) (st : Store) (rl : RateLimiter)
    (trace : List (Int × HResp)) : Except (PyError × Store) (ReqResult × Store × RateLimiter) :=
  let url_params := complexUrlParams request_type now kwargs
  let is_singular := complexIsSingular request_type now kwargs
  let base_url :=
    if is_singular then
      "https://api.wanikani.com/v2/" ++ request_type ++ "s/" ++
        pyStr ((dictGet kwargs "ids").getD .none)
    else "https://api.wanikani.com/v2/" ++ request_type ++ "s"
  let can_use_cache := canUseCacheCheck kwargs
  doRequests (complexCached request_type now kwargs st) request_type base_url url_params
    is_singular can_use_cache uid wmNow st rl trace

/-- The keyword-argument dict of `get_assignments` (api.py lines 86-104), in
signature (`__kwdefaults__`) order. -/
def assignmentsKwargs (ids available_after available_before burned hidden
    immediately_available_for_lessons immediately_available_for_review in_review
    levels srs_stages started subject_ids subject_types unlocked updated_after : PyVal) :
    List (String × PyVal) :=
  [("ids", ids), ("available_after", available_after),
   ("available_before", available_before), ("burned", burned), ("hidden", hidden),
   ("immediately_available_for_lessons", immediately_available_for_lessons),
   ("immediately_available_for_review", immediately_available_for_review),
   ("in_review", in_review), ("levels", levels), ("srs_stages", srs_stages),
   ("started", started), ("subject_ids", subject_ids),
   ("subject_types", subject_types), ("unlocked", unlocked),
   ("updated_after", updated_after)]

/-- `get_assignments` (api.py lines 86-104): package the keyword arguments in
signature order and delegate to `_complex_request` for the `assignment`
resource type. -/
def get_assignments (ids available_after available_before burned hidden
    immediately_available_for_lessons immediately_available_for_review in_review
    levels srs_stages started subject_ids subject_types unlocked updated_after : PyVal)
    (now : Int) (uid : String) (wmNow : Int) (st : Store) (rl : RateLimiter)
    (trace : List (Int × HResp)) : Except (PyError × Store) (ReqResult × Store × RateLimiter) :=
  complexRequest "assignment"
    (assignmentsKwargs ids available_after available_before burned hidden
      immediately_available_for_lessons immediately_available_for_review in_review
      levels srs_stages started subject_ids subject_types unlocked updated_after)
    now uid wmNow st rl trace

/-! ## The ids/updated_after request family (`_ids_updated_after_request`,
api.py lines 551-579) and its four public wrappers -/

/-- Whether a Python value is hashable, i.e. usable as a set element: lists,
dicts and sets are not. -/
def PyVal.hashable : PyVal → Bool
  | .list _ => false
  | .dict _ => false
  | .pySet _ => false
  | _ => true

/-- Construct a Python set literal: CPython hashes each element, raising
`TypeError: unhashable type` on a list. -/
def mkPySet (xs : List PyVal) : Except PyError PyVal :=
  if xs.all PyVal.hashable then .ok (.pySet xs)
  else .error (.typeError "unhashable type: list")

/-- The query-compilation part of the non-singular branch of
`_ids_updated_after_request` (api.py lines 560-577), reproducing the source's
slips faithfully: a scalar int `ids` is rebound to `[int]` — the list
containing the `int` TYPE OBJECT, not the supplied value — which is first
serialized into the query fragment (line 566) and then placed in the SET
literal `{"$in", ids}` (line 567); constructing that set hashes the list and
raises `TypeError`, so compilation never completes for a non-null `ids`. -/
def idsUpdatedAfterCompile (ids updated_after : PyVal) (request_type : String) :
    Except PyError (List String × List (String × PyVal)) := do
  let url_params : List String := []
  let filter_args : List (String × PyVal) := [("object", .str request_type)]
  let step1 ←
    if !ids.isNone then do
      let ids := if ids.isInt then PyVal.list [PyVal.typeObj "int"] else ids
      let xs := match ids with | .list l => l | v => [v]
      let up := url_params ++ ["ids=" ++ commaJoin xs]
      let idCond ← mkPySet [PyVal.str "$in", ids]
      pure (up, dictSet filter_args "id" idCond)
    else pure (url_params, filter_args)
  if !updated_after.isNone then
    let ua := match updated_after with | .str s => PyVal.dt (fromisoformat s) | v => v
    pure (step1.1 ++ ["updated_after=" ++ quote (pyIso ua)],
      dictSet step1.2 "data_updated_at" (PyVal.dict [("$gte", ua)]))
  else pure step1

/-- `_ids_updated_after_request` (api.py lines 551-579): singularity is
`type(ids) is int and updated_after is None`; the singular branch point-looks-up
the cached document, otherwise the compiled filter drives a lazy scan; both
delegate to `_do_requests` (with the default `can_use_cache=True`).  An
exception raised during compilation propagates with the store untouched. -/
def idsUpdatedAfterRequest (ids updated_after : PyVal) (request_type : String)
    (uid : String) (wmNow : Int) (st : Store) (rl : RateLimiter)
    (trace : List (Int × HResp)) : Except (PyError × Store) (ReqResult × Store × RateLimiter) :=
  let is_singular := ids.isInt && updated_after.isNone
  if is_singular then
    let url := "https://api.wanikani.com/v2/" ++ request_type ++ "s/" ++ pyStr ids
    let cached := CacheRes.one (findOne st.personalCache
      [("object", .str request_type), ("id", ids)])
    doRequests cached request_type url [] is_singular true uid wmNow st rl trace
  else
    match idsUpdatedAfterCompile ids updated_after request_type with
    | .error e => .error (e, st)
    | .ok pf =>
        let url := "https://api.wanikani.com/v2/" ++ request_type ++ "s"
        doRequests (CacheRes.cursor pf.2) request_type url pf.1 is_singular true
          uid wmNow st rl trace

/-- `get_level_progressions` (api.py lines 132-136). -/
def get_level_progressions (ids updated_after : PyVal) (uid : String) (wmNow : Int)
    (st : Store) (rl : RateLimiter) (trace : List (Int × HResp)) :
    Except (PyError × Store) (ReqResult × Store × RateLimiter) :=
  idsUpdatedAfterRequest ids updated_after "level_progression" uid wmNow st rl trace

/-- `get_resets` (api.py lines 138-139). -/
def get_resets (ids updated_after : PyVal) (uid : String) (wmNow : Int)
    (st : Store) (rl : RateLimiter) (trace : List (Int × HResp)) :
    Except (PyError × Store) (ReqResult × Store × RateLimiter) :=
  idsUpdatedAfterRequest ids updated_after "reset" uid wmNow st rl trace

/-- `get_srs_systems` (api.py lines 210-211). -/
def get_srs_systems (ids updated_after : PyVal) (uid : String) (wmNow : Int)
    (st : Store) (rl : RateLimiter) (trace : List (Int × HResp)) :
    Except (PyError × Store) (ReqResult × Store × RateLimiter) :=
  idsUpdatedAfterRequest ids updated_after "spaced_repetition_system" uid wmNow st rl trace

/-- `get_voice_actors` (api.py lines 520-523). -/
def get_voice_actors (ids updated_after : PyVal) (uid : String) (wmNow : Int)
    (st : Store) (rl : RateLimiter) (trace : List (Int × HResp)) :
    Except (PyError × Store) (ReqResult × Store × RateLimiter) :=
  idsUpdatedAfterRequest ids updated_after "voice_actor" uid wmNow st rl trace

/-! ## ResourceClient write-through: `create_review` (api.py lines 150-195) -/

/-- The updated assignment sub-resource bundled in a create-review response
(api.py line 187). -/
def reviewRespAssignment (body : PyVal) : PyVal :=
  (((body.get "resources_updated").getD .none).get "assignment").getD .none

/-- The updated review_statistic sub-resource bundled in a create-review
response (api.py line 188). -/
def reviewRespStatistic (body : PyVal) : PyVal :=
  (((body.get "resources_updated").getD .none).get "review_statistic").getD .none

/-- The review document itself: the response minus its `resources_updated` key
(api.py line 189). -/
def reviewTemp (body : PyVal) : PyVal :=
  match body with
  | .dict kvs => PyVal.dict (kvs.filter (fun kv => !(kv.1 == "resources_updated")))
  | v => v

/-- The (id, object) filter used to patch the cached assignment after a review
submission (api.py lines 191-192). -/
def reviewAssignKey (body : PyVal) : List (String × PyVal) :=
  [("id", ((reviewRespAssignment body).get "id").getD .none), ("object", .str "assignment")]

/-- The (id, object) filter used to patch the cached review_statistic after a
review submission (api.py lines 193-194). -/
def reviewStatKey (body : PyVal) : List (String × PyVal) :=
  [("id", ((reviewRespStatistic body).get "id").getD .none), ("object", .str "review_statistic")]

/-- `create_review`: after the POST succeeds, insert the review document (the
response minus its `resources_updated` key), then `update_one` — WITHOUT
`upsert=True` — the bundled assignment and review_statistic sub-resources,
keyed by (id, object). -/
def create_review (incorrect_meaning_answers incorrect_reading_answers : Int)
    (aid sid created_at : PyVal) (resp : HResp) (now : Int)
    (st : Store) (rl : RateLimiter) : Except (PyError × Store) (PyVal × Store × RateLimiter) :=
  if aid.isNone && sid.isNone then .error (.assertionError, st)
  else if !aid.isNone && !sid.isNone then .error (.assertionError, st)
  else
    let data := [("incorrect_meaning_answers", PyVal.int incorrect_meaning_answers),
                 ("incorrect_reading_answers", PyVal.int incorrect_reading_answers)]
    let data := if !aid.isNone then dictSet data "assignment_id" aid
                else dictSet data "subject_id" sid
    let data :=
      if !created_at.isNone then
        let ca := match created_at with | .str s => PyVal.dt (fromisoformat s) | v => v
        dictSet data "started_at" (PyVal.str (pyIso ca))
      else data
    let _requestBody := data
    match rl.can_request now with
    | (false, _) => .error (.rateLimit, st)
    | (true, rl1) =>
      if resp.status ≥ 400 then .error (raise_error (.response resp.status), st)
      else
        let d := resp.body
        let pc := insertOne st.personalCache (reviewTemp d)
        let pc := updateOne pc (reviewAssignKey d) (reviewRespAssignment d) false
        let pc := updateOne pc (reviewStatKey d) (reviewRespStatistic d) false
        .ok (d, { st with personalCache := pc }, rl1)

/-! ## Concrete scenario data used by the verification theorems -/

/-- A burned assignment document already present in the local cache. -/
def cachedAssignment : PyVal :=
  .dict [("object", .str "assignment"), ("id", .int 11),
         ("data_updated_at", .dt 5), ("data", .dict [("burned_at", .dt 3)])]

/-- A local store holding one burned assignment and no validators. -/
def scenarioStore : Store := ⟨[cachedAssignment], []⟩

/-- The keyword arguments of `get_assignments(burned=True)`. -/
def burnedKwargs : List (String × PyVal) :=
  assignmentsKwargs .none .none .none (.bool true) .none .none .none .none .none
    .none .none .none .none .none .none

/-- The local filter compiled from `get_assignments(burned=True)`. -/
def burnedFilter : List (String × PyVal) :=
  [("object", .str "assignment"), ("data.burned_at", .dict [("$ne", .none)])]

/-- A wire-format assignment item with the given id. -/
def wireItem (n : Int) : PyVal :=
  .dict [("id", .int n), ("object", .str "assignment"),
         ("data_updated_at", .str "7"), ("data", .dict [("burned_at", .str "3")])]

/-- The same item after `_convert_dates` and keyed insertion. -/
def storedItem (n : Int) : PyVal :=
  .dict [("object", .str "assignment"), ("id", .int n),
         ("data_updated_at", .dt 7), ("data", .dict [("burned_at", .dt 3)])]

/-- First page of a two-page walk: one item and a next url. -/
def pageOne : HResp :=
  ⟨200, [("Last-Modified", "lm1"), ("ETag", "e1")],
   .dict [("pages", .dict [("next_url",
            .str "https://api.wanikani.com/v2/assignments?page_after_id=21")]),
          ("data", .list [wireItem 21])]⟩

/-- Second and final page of the walk: one item, next url null. -/
def pageTwo : HResp :=
  ⟨200, [("Last-Modified", "lm2"), ("ETag", "e2")],
   .dict [("pages", .dict [("next_url", .none)]), ("data", .list [wireItem 22])]⟩

/-- The watermark record written by the two-page walk of the burned-assignments
family (walk completed at instant 999). -/
def c2WatermarkRec : PyVal :=
  .dict [("object", .str "url_update"),
         ("url", .str "https://api.wanikani.com/v2/assignments?burned=true"),
         ("date", .dt 999)]

/-- The store after the two-page walk: both items upserted keyed by
(resource type, id), both validators recorded, the watermark written once. -/
def c2FinalStore : Store :=
  ⟨[cachedAssignment, storedItem 21, storedItem 22, c2WatermarkRec],
   [.dict [("uid", .str "u1"),
           ("url", .str "https://api.wanikani.com/v2/assignments?burned=true"),
           ("Last-Modified", .str "lm1"), ("ETag", .str "e1")],
    .dict [("uid", .str "u1"),
           ("url", .str "https://api.wanikani.com/v2/assignments?page_after_id=21"),
           ("Last-Modified", .str "lm2"), ("ETag", .str "e2")]]⟩

/-- A wire-format reset item. -/
def wireReset : PyVal :=
  .dict [("id", .int 1), ("object", .str "reset"),
         ("data_updated_at", .str "7"), ("data", .dict [])]

/-- A wire-format voice_actor item. -/
def wireVoiceActor : PyVal :=
  .dict [("id", .int 2), ("object", .str "voice_actor"),
         ("data_updated_at", .str "8"), ("data", .dict [])]

/-- A single terminal page carrying one reset. -/
def onePageResets : HResp :=
  ⟨200, [], .dict [("pages", .dict [("next_url", .none)]), ("data", .list [wireReset])]⟩

/-- A single terminal page carrying one voice actor. -/
def onePageVoiceActors : HResp :=
  ⟨200, [], .dict [("pages", .dict [("next_url", .none)]), ("data", .list [wireVoiceActor])]⟩

/-- The watermark record of the resets family after its walk at instant 100. -/
def resetsWatermark : PyVal :=
  .dict [("object", .str "url_update"),
         ("url", .str "https://api.wanikani.com/v2/resets"), ("date", .dt 100)]

/-- The store after a completed walk of the resets family. -/
def c3StoreA : Store :=
  ⟨[.dict [("object", .str "reset"), ("id", .int 1),
           ("data_updated_at", .dt 7), ("data", .dict [])],
    resetsWatermark], []⟩

/-- The store after a subsequent completed walk of the voice_actors family over
`c3StoreA`: the single url_update record was matched by the url-less upsert
filter and rebound to the voice_actors family. -/
def c3StoreB : Store :=
  ⟨[.dict [("object", .str "reset"), ("id", .int 1),
           ("data_updated_at", .dt 7), ("data", .dict [])],
    .dict [("object", .str "url_update"),
           ("url", .str "https://api.wanikani.com/v2/voice_actors"), ("date", .dt 200)],
    .dict [("object", .str "voice_actor"), ("id", .int 2),
           ("data_updated_at", .dt 8), ("data", .dict [])]], []⟩

/-- A first page that promises a second one. -/
def resetsPageOneOfTwo : HResp :=
  ⟨200, [], .dict [("pages", .dict [("next_url", .str "nexturl")]),
                   ("data", .list [wireReset])]⟩

/-- The response body of a successful review submission, bundling the review
with the updated assignment and review_statistic sub-resources. -/
def c9Body : PyVal :=
  .dict [("id", .int 5), ("object", .str "review"), ("data", .dict []),
         ("resources_updated", .dict [
            ("assignment", .dict [("id", .int 7), ("object", .str "assignment"),
                                  ("data", .dict [])]),
            ("review_statistic", .dict [("id", .int 9), ("object", .str "review_statistic"),
                                        ("data", .dict [])])])]

/-- A successful create-review response. -/
def c9Resp : HResp := ⟨201, [], c9Body⟩

/-! ## Helper lemmas -/

/-- The front-dropping loop of `can_request` drops exactly the longest prefix
of too-old timestamps. -/
theorem dropOld_eq_dropWhile (now : Int) (l : List Int) :
    dropOld now l = l.dropWhile (fun t => decide (now - t > 60)) := by
  induction l with
  | nil => rfl
  | cons t rest ih =>
      by_cases h : now - t > 60
      · simp [dropOld, List.dropWhile, h, ih]
      · simp [dropOld, List.dropWhile, h]

/-- Appending to a nonempty string stays nonempty. -/
theorem isEmpty_append_false (s t : String) (h : s.isEmpty = false) :
    (s ++ t).isEmpty = false := by
  cases hc : (s ++ t).isEmpty with
  | false => rfl
  | true =>
      exfalso
      rw [String.isEmpty_iff] at hc
      have hdata := congrArg String.data hc
      rw [String.data_append] at hdata
      have hs : s.data = [] := (List.append_eq_nil.mp hdata).1
      have hse : s = "" := String.ext (by simpa using hs)
      rw [hse] at h
      exact absurd h (by decide)

/-- A URL built by appending to a nonempty base is truthy. -/
theorem pyTruthy_str_append (s t : String) (h : s.isEmpty = false) :
    pyTruthy (.str (s ++ t)) = true := by
  simp [pyTruthy, isEmpty_append_false s t h]

/-! ## Claim theorems -/

/-- C6: for every limiter state, `can_request` first drops the timestamps
older than 60 seconds from the front of the window, then appends the current
instant and returns true when fewer than 3 timestamps remained, and returns
false without consuming a slot otherwise; in particular 4 calls within 10
seconds return true, true, true, false, and a 5th call after a 61-second
advance returns true. -/
theorem C6_rate_limiter (rl : RateLimiter) (now : Int) :
    dropOld now rl.requests = rl.requests.dropWhile (fun t => decide (now - t > 60)) ∧
    ((dropOld now rl.requests).length < 3 →
      rl.can_request now = (true, ⟨dropOld now rl.requests ++ [now]⟩)) ∧
    (3 ≤ (dropOld now rl.requests).length →
      rl.can_request now = (false, ⟨dropOld now rl.requests⟩)) ∧
    (runCanRequest ⟨[]⟩ [0, 2, 4, 6, 67]).1 = [true, true, true, false, true] := by
  refine ⟨dropOld_eq_dropWhile now rl.requests, ?_, ?_, by decide⟩
  · intro h
    simp [RateLimiter.can_request, Nat.not_le.mpr h]
  · intro h
    simp [RateLimiter.can_request, h]

/-- Witness for C6: a limiter with two live timestamps grants and records a
third request. -/
theorem C6_rate_limiter_witness :
    (RateLimiter.mk [70, 80]).can_request 100 = (true, ⟨[70, 80, 100]⟩) :=
  (C6_rate_limiter ⟨[70, 80]⟩ 100).2.1 (by decide)

/-- C7, evaluated at the failing trace: after three granted requests at
instants 0, 1, 2, the blocked fourth attempt sleeps and is then issued at
instant 60 WITHOUT being recorded in the window, so the attempts at 61, 62, 63
are all granted — four network requests are issued inside the sliding
one-minute window [60, 120), exceeding the 3-request budget. -/
theorem C7_rate_budget_violated :
    (runGated ⟨[]⟩ [0, 1, 2, 3, 61, 62, 63]).1 = [0, 1, 2, 60, 61, 62, 63] ∧
    ((runGated ⟨[]⟩ [0, 1, 2, 3, 61, 62, 63]).1.filter
        (fun t => decide (60 ≤ t ∧ t < 120))).length = 4 := by
  exact ⟨by decide, by decide⟩

/-- C10, evaluated at the failing input: a scalar int `ids` together with a
non-null `updated_after` is classified non-singular and rebinds `ids` to the
list holding the `int` type object, whose serialization is `<class 'int'>`;
but constructing the local id filter as the set literal `{"$in", ids}` hashes
that list and raises `TypeError: unhashable type: list`, so the call crashes —
with the store untouched, no filter built and no request issued — identically
for every supplied identifier, instead of building the set-valued filter the
claim describes. -/
theorem C10_ids_with_updated_after (request_type uid : String) (n m ua wmNow : Int)
    (st : Store) (rl : RateLimiter) (trace : List (Int × HResp)) :
    ((PyVal.int n).isInt && (PyVal.dt ua).isNone) = false ∧
    commaJoin [PyVal.typeObj "int"] = "<class " ++ tick ++ "int" ++ tick ++ ">" ∧
    mkPySet [PyVal.str "$in", PyVal.list [PyVal.typeObj "int"]]
      = .error (.typeError "unhashable type: list") ∧
    idsUpdatedAfterCompile (.int n) (.dt ua) request_type
      = .error (.typeError "unhashable type: list") ∧
    idsUpdatedAfterRequest (.int n) (.dt ua) request_type uid wmNow st rl trace
      = .error (.typeError "unhashable type: list", st) ∧
    idsUpdatedAfterRequest (.int n) (.dt ua) request_type uid wmNow st rl trace
      = idsUpdatedAfterRequest (.int m) (.dt ua) request_type uid wmNow st rl trace := by
  exact ⟨rfl, rfl, rfl, rfl, rfl, rfl⟩

/-- Update-one with no matching document finds nothing to update. -/
theorem updateOneGo_eq_none (f : List (String × PyVal)) (s : PyVal) (docs : List PyVal)
    (h : ∀ d ∈ docs, matchFilter d f = false) : updateOneGo f s docs = Option.none := by
  induction docs with
  | nil => rfl
  | cons d rest ih =>
      have hd := h d (List.mem_cons_self d rest)
      have hrest := ih (fun x hx => h x (List.mem_cons_of_mem d hx))
      simp [updateOneGo, hd, hrest]

/-- Update-one without upsert leaves the collection unchanged when no document
matches. -/
theorem updateOne_no_match (docs : List PyVal) (f : List (String × PyVal)) (s : PyVal)
    (h : ∀ d ∈ docs, matchFilter d f = false) : updateOne docs f s false = docs := by
  unfold updateOne
  rw [updateOneGo_eq_none f s docs h]
  rfl

/-- Find-one returns Python `None` when no document matches. -/
theorem findOne_no_match (docs : List PyVal) (f : List (String × PyVal))
    (h : ∀ d ∈ docs, matchFilter d f = false) : findOne docs f = .none := by
  unfold findOne
  rw [List.find?_eq_none.mpr (fun x hx => by simp [h x hx])]

/-- C4 counterexample: `in_review` is a non-null boolean-valued filter
parameter of `get_assignments`, yet compilation appends the presence-only
fragment `in_review` — not `in_review=true` — and the assignment-side local
filter gains a predicate on `data.available_at`, not on `data.in_review_at`. -/
theorem C4_counterexample :
    (processParam true [("in_review", .bool true)] 0
        ([], [("object", PyVal.str "assignment")]) ("in_review", .bool true)).1
      = ["in_review"] ∧
    (["in_review"] : List String) ≠ ["in_review=true"] ∧
    (processParam true [("in_review", .bool true)] 0
        ([], [("object", PyVal.str "assignment")]) ("in_review", .bool true)).2
      = [("object", PyVal.str "assignment"),
         ("data.available_at", PyVal.dict [("$ne", PyVal.none)])] ∧
    dictGet (processParam true [("in_review", .bool true)] 0
        ([], [("object", PyVal.str "assignment")]) ("in_review", .bool true)).2
        "data.in_review_at" = Option.none := by
  exact ⟨rfl, by decide, rfl, rfl⟩

/-- C4 (amended): for every non-null boolean-valued filter parameter other
than the three presence-only flags (`immediately_available_for_lessons`,
`immediately_available_for_review`, `in_review`), compilation appends the
lowercase fragment `name=true` / `name=false`; for the assignment resource
type the local filter gains `data.name_at is not null` for true and
`data.name_at is null` for false, and for every other resource type it gains
the boolean-equality predicate on `data.name`. -/
theorem C4_boolean_params (is_assignment : Bool) (kwargs : List (String × PyVal))
    (now : Int) (up : List String) (fp : List (String × PyVal)) (param : String) (b : Bool)
    (h1 : param ≠ "immediately_available_for_lessons")
    (h2 : param ≠ "immediately_available_for_review")
    (h3 : param ≠ "in_review")
    (h4 : strContains param "before" = false)
    (h5 : strContains param "after" = false)
    (h6 : strContains param "percentage" = false) :
    processParam is_assignment kwargs now (up, fp) (param, .bool b)
      = (up ++ [param ++ "=" ++ (if b then "true" else "false")],
         if is_assignment then
           dictSet fp ("data." ++ param ++ "_at")
             (if b then .dict [("$ne", .none)] else .none)
         else dictSet fp ("data." ++ param) (.bool b)) := by
  have e1 : (param == "immediately_available_for_lessons") = false := by
    simpa using h1
  have e2 : (param == "immediately_available_for_review") = false := by
    simpa using h2
  have e3 : (param == "in_review") = false := by
    simpa using h3
  have e45 : (strContains param "before" || strContains param "after") = false := by
    rw [h4, h5]
    rfl
  simp only [processParam, PyVal.isNone, PyVal.isStr, PyVal.isInt, e1, e2, e3, e45, h6,
    Bool.false_eq_true, if_false, Bool.or_self]
  cases is_assignment <;> rfl

/-- Witness for C4: the `burned` flag of `get_assignments` compiles to a
`burned=true` fragment and a not-null predicate on `data.burned_at`. -/
theorem C4_boolean_params_witness :
    processParam true [("burned", PyVal.bool true)] 0
        ([], [("object", PyVal.str "assignment")]) ("burned", PyVal.bool true)
      = (["burned=true"],
         [("object", PyVal.str "assignment"),
          ("data.burned_at", PyVal.dict [("$ne", PyVal.none)])]) := by
  have h := C4_boolean_params true [("burned", PyVal.bool true)] 0 []
    [("object", PyVal.str "assignment")] "burned" true
    (by decide) (by decide) (by decide) (by decide) (by decide) (by decide)
  exact h

/-- C5, evaluated at the failing input: `get_assignments(available_after=t)`
with `available_before` null still takes the combined branch (its guard only
tests key PRESENCE, and tests `updated_after` instead of `available_after`),
producing the two-sided predicate `{"$gte": t, "$lte": None}` instead of the
one-sided `{"$gte": t}`; with both bounds supplied the combined inclusive
range predicate is produced as specified. -/
theorem C5_timestamp_bounds :
    (parseQueryParameters [] [("object", PyVal.str "assignment")] true 0
        (assignmentsKwargs .none (.dt 100) .none .none .none .none .none .none .none
          .none .none .none .none .none .none)).1
      = ["available_after=" ++ quote (isoformat 100)] ∧
    (parseQueryParameters [] [("object", PyVal.str "assignment")] true 0
        (assignmentsKwargs .none (.dt 100) .none .none .none .none .none .none .none
          .none .none .none .none .none .none)).2
      = [("object", PyVal.str "assignment"),
         ("data.available_at", PyVal.dict [("$gte", PyVal.dt 100), ("$lte", PyVal.none)])] ∧
    (parseQueryParameters [] [("object", PyVal.str "assignment")] true 0
        (assignmentsKwargs .none (.dt 100) (.dt 200) .none .none .none .none .none .none
          .none .none .none .none .none .none)).2
      = [("object", PyVal.str "assignment"),
         ("data.available_at", PyVal.dict [("$gte", PyVal.dt 100), ("$lte", PyVal.dt 200)])] := by
  exact ⟨rfl, rfl, rfl⟩

/-- C8: `_raise_error` itself maps 429 to the rate-limit error, 401/403 to the
invalid-token error and any other status to the generic request error — and
the write endpoint `create_review`, which passes the response object, raises
the mapped exception; but the read path `_do_requests` passes the bare int
`request.status`, so a 429 on `get_assignments` raises an AttributeError
instead of the mapped exception. -/
theorem C8_error_paths :
    raise_error (.response 429) = .rateLimit ∧
    raise_error (.response 401) = .invalidToken ∧
    raise_error (.response 403) = .invalidToken ∧
    raise_error (.response 500) = .requestError 500 ∧
    get_assignments .none .none .none .none .none .none .none .none .none .none .none
        .none .none .none .none 0 "u1" 9 scenarioStore ⟨[]⟩ [(0, ⟨429, [], .none⟩)]
      = .error (.attributeError "int object has no attribute status", scenarioStore) ∧
    create_review 3 1 (.int 7) .none .none ⟨429, [], .none⟩ 0 scenarioStore ⟨[]⟩
      = .error (.rateLimit, scenarioStore) := by
  exact ⟨rfl, rfl, rfl, rfl, rfl, rfl⟩

/-- C9 counterexample: a successful review submission against an empty cache —
the response bundles the assignment (id 7) and review_statistic (id 9), yet
after the call only the review document is persisted; the two sub-resource
lookups still find nothing, because `update_one` is issued without
`upsert=True`. -/
theorem C9_counterexample :
    create_review 3 1 (.int 7) .none .none c9Resp 0 ⟨[], []⟩ ⟨[]⟩
      = .ok (c9Body, ⟨[reviewTemp c9Body], []⟩, ⟨[0]⟩) ∧
    reviewRespAssignment c9Body
      = .dict [("id", .int 7), ("object", .str "assignment"), ("data", .dict [])] ∧
    reviewRespStatistic c9Body
      = .dict [("id", .int 9), ("object", .str "review_statistic"), ("data", .dict [])] ∧
    findOne [reviewTemp c9Body] (reviewAssignKey c9Body) = .none ∧
    findOne [reviewTemp c9Body] (reviewStatKey c9Body) = .none := by
  exact ⟨rfl, rfl, rfl, rfl, rfl⟩

/-- C9 (amended): after a successful `create_review`, the review document is
inserted, but the bundled assignment and review_statistic sub-resources are
written by update-by-key WITHOUT insert-if-absent, so when neither sub-resource
document existed in the cache before the call, neither exists after it — only
the review is persisted. -/
theorem C9_review_persistence (ima ira n now : Int) (body : PyVal) (st : Store)
    (hA : ∀ d ∈ st.personalCache, matchFilter d (reviewAssignKey body) = false)
    (hS : ∀ d ∈ st.personalCache, matchFilter d (reviewStatKey body) = false)
    (hTA : matchFilter (reviewTemp body) (reviewAssignKey body) = false)
    (hTS : matchFilter (reviewTemp body) (reviewStatKey body) = false) :
    create_review ima ira (.int n) .none .none ⟨201, [], body⟩ now st ⟨[]⟩
      = .ok (body, { st with personalCache := st.personalCache ++ [reviewTemp body] },
             ⟨[now]⟩) ∧
    findOne (st.personalCache ++ [reviewTemp body]) (reviewAssignKey body) = .none ∧
    findOne (st.personalCache ++ [reviewTemp body]) (reviewStatKey body) = .none := by
  have hA2 : ∀ d ∈ st.personalCache ++ [reviewTemp body],
      matchFilter d (reviewAssignKey body) = false := by
    intro d hd
    rcases List.mem_append.mp hd with hmem | hmem
    · exact hA d hmem
    · rw [List.mem_singleton.mp hmem]
      exact hTA
  have hS2 : ∀ d ∈ st.personalCache ++ [reviewTemp body],
      matchFilter d (reviewStatKey body) = false := by
    intro d hd
    rcases List.mem_append.mp hd with hmem | hmem
    · exact hS d hmem
    · rw [List.mem_singleton.mp hmem]
      exact hTS
  refine ⟨?_, findOne_no_match _ _ hA2, findOne_no_match _ _ hS2⟩
  have key : create_review ima ira (.int n) .none .none ⟨201, [], body⟩ now st ⟨[]⟩
      = Except.ok (body,
        { st with personalCache :=
            (updateOne (updateOne (st.personalCache ++ [reviewTemp body])
                (reviewAssignKey body) (reviewRespAssignment body) false)
              (reviewStatKey body) (reviewRespStatistic body) false) },
        (⟨[now]⟩ : RateLimiter)) := rfl
  rw [key, updateOne_no_match _ _ _ hA2, updateOne_no_match _ _ _ hS2]

/-- Witness for C9: the concrete review submission against an empty cache,
with the amended persistence behavior evaluated. -/
theorem C9_review_persistence_witness :
    create_review 3 1 (.int 7) .none .none ⟨201, [], c9Body⟩ 0 ⟨[], []⟩ ⟨[]⟩
      = .ok (c9Body, { personalCache := [reviewTemp c9Body], etagDb := [] }, ⟨[0]⟩) ∧
    findOne [reviewTemp c9Body] (reviewAssignKey c9Body) = .none := by
  have h := C9_review_persistence 3 1 7 0 c9Body ⟨[], []⟩
    (by intro d hd; simp at hd) (by intro d hd; simp at hd) rfl rfl
  exact ⟨h.1, h.2.1⟩

/-- A first response of 304 makes the page-walk loop return the pre-computed
cached value with the store untouched. -/
theorem doRequestsLoop_first_304 (cached : CacheRes) (request_type uw : String)
    (is_singular can_use_cache : Bool) (uid : String) (wmNow : Int)
    (url : String) (hurl : url.isEmpty = false) (st : Store) (rl : RateLimiter)
    (t : Int) (hs : List (String × String)) (body : PyVal) (rest : List (Int × HResp)) :
    doRequestsLoop cached request_type uw is_singular can_use_cache uid wmNow []
      (.str url) st rl ((t, ⟨304, hs, body⟩) :: rest)
      = .ok (.cached cached, st, (gateAndIssue rl t).2) := by
  simp only [doRequestsLoop, pyTruthy, hurl, Bool.not_false, if_true]
  norm_num

/-- A first response of 304 makes `_do_requests` return the pre-computed
cached value with the store untouched; only the rate limiter advances. -/
theorem doRequests_first_304 (cached : CacheRes) (request_type base_url : String)
    (hbase : base_url.isEmpty = false) (url_params : List String)
    (is_singular can_use_cache : Bool) (uid : String) (wmNow : Int)
    (st : Store) (rl : RateLimiter) (t : Int) (hs : List (String × String))
    (body : PyVal) (rest : List (Int × HResp)) :
    doRequests cached request_type base_url url_params is_singular can_use_cache
      uid wmNow st rl ((t, ⟨304, hs, body⟩) :: rest)
      = .ok (.cached cached, st, (gateAndIssue rl t).2) := by
  unfold doRequests
  exact doRequestsLoop_first_304 cached request_type _ is_singular can_use_cache uid wmNow _
    (isEmpty_append_false _ _ (isEmpty_append_false _ _ hbase)) st rl t hs body rest

/-- C1: for every request compiled by `_complex_request` whose filters include
none of the four cache-invalidating parameters, a 304 on the first response
returns exactly the pre-request local result — the point lookup for a singular
lookup, the (lazy) filtered scan otherwise — and the document, validator and
watermark stores come back exactly as they were. -/
theorem C1_not_modified (request_type : String) (kwargs : List (String × PyVal))
    (now : Int) (uid : String) (wmNow : Int) (st : Store) (rl : RateLimiter)
    (t : Int) (hs : List (String × String)) (body : PyVal) (rest : List (Int × HResp))
    (hcache : canUseCacheCheck kwargs = true) :
    complexRequest request_type kwargs now uid wmNow st rl ((t, ⟨304, hs, body⟩) :: rest)
      = .ok (.cached (complexCached request_type now kwargs st), st, (gateAndIssue rl t).2) ∧
    observeCached (complexCached request_type now kwargs st) st.personalCache
      = (if complexIsSingular request_type now kwargs = true
         then findOne st.personalCache (complexFilterArgs request_type now kwargs)
         else .list (findDocs st.personalCache (complexFilterArgs request_type now kwargs))) := by
  constructor
  · unfold complexRequest
    refine doRequests_first_304 _ request_type _ ?_ _ _ _ uid wmNow st rl t hs body rest
    by_cases hsing : complexIsSingular request_type now kwargs = true
    · rw [if_pos hsing]
      exact isEmpty_append_false _ _
        (isEmpty_append_false _ _ (isEmpty_append_false _ _ (by decide)))
    · rw [if_neg hsing]
      exact isEmpty_append_false _ _ (isEmpty_append_false _ _ (by decide))
  · unfold complexCached
    rw [if_pos hcache]
    by_cases hsing : complexIsSingular request_type now kwargs = true
    · rw [if_pos hsing, if_pos hsing]
      rfl
    · rw [if_neg hsing, if_neg hsing]
      rfl

/-- Witness for C1: `get_assignments(burned=True)` against a store holding one
burned assignment, answered 304 — the filtered scan comes back and the store
is unchanged. -/
theorem C1_not_modified_witness :
    complexRequest "assignment" burnedKwargs 0 "u1" 999 scenarioStore ⟨[]⟩
        [(0, ⟨304, [], .none⟩)]
      = .ok (.cached (complexCached "assignment" 0 burnedKwargs scenarioStore),
             scenarioStore, (gateAndIssue ⟨[]⟩ 0).2) ∧
    observeCached (complexCached "assignment" 0 burnedKwargs scenarioStore)
        scenarioStore.personalCache
      = .list [cachedAssignment] := by
  have h := C1_not_modified "assignment" burnedKwargs 0 "u1" 999 scenarioStore ⟨[]⟩
    0 [] .none [] rfl
  refine ⟨h.1, ?_⟩
  rw [h.2]
  rfl

/-- C2 counterexample: a non-singular two-page walk over a store already
holding a matching document — the engine hands back the pre-computed lazy scan
(line 676 returns `cached`, not `data_out`), and consuming it after the walk
yields three documents, not the two accumulated items. -/
theorem C2_counterexample :
    complexRequest "assignment" burnedKwargs 0 "u1" 999 scenarioStore ⟨[]⟩
        [(0, pageOne), (1, pageTwo)]
      = .ok (.cached (.cursor burnedFilter), c2FinalStore, ⟨[0, 1]⟩) ∧
    observeResult (.cached (.cursor burnedFilter)) c2FinalStore.personalCache
      = .list [cachedAssignment, storedItem 21, storedItem 22] ∧
    PyVal.list [cachedAssignment, storedItem 21, storedItem 22]
      ≠ PyVal.list [storedItem 21, storedItem 22] := by
  refine ⟨rfl, rfl, fun h => ?_⟩
  have hlen := congrArg (fun v => match v with | PyVal.list xs => xs.length | _ => 0) h
  simp at hlen

/-- `_set_etag` only touches the validator collection. -/
theorem setEtag_personalCache (st : Store) (uid url : String) (hs : List (String × String)) :
    (setEtag st uid url hs).personalCache = st.personalCache := by
  unfold setEtag
  cases hs.lookup "Last-Modified" <;> cases hs.lookup "ETag" <;> rfl

/-- The per-page store update of the walk only touches the validator
collection. -/
theorem stepStore_personalCache (cu : Bool) (st : Store) (uid url : String)
    (hs : List (String × String)) :
    (if cu then setEtag st uid url hs else st).personalCache = st.personalCache := by
  cases cu
  · rfl
  · exact setEtag_personalCache st uid url hs

/-- One successful page iteration of the walk loop: accumulate the page's
items, move to its next url, record the validator, and keep walking. -/
theorem doRequestsLoop_page_step (cached : CacheRes) (request_type uw : String)
    (is_singular can_use_cache : Bool) (uid : String) (wmNow : Int)
    (data_out : List PyVal) (url : PyVal) (st : Store) (rl : RateLimiter)
    (t : Int) (r : HResp) (rest : List (Int × HResp)) (pages : PyVal)
    (hurl : pyTruthy url = true)
    (hge : decide (r.status ≥ 400) = false)
    (h304 : (r.status == 304) = false)
    (hpages : r.body.get "pages" = some pages) :
    doRequestsLoop cached request_type uw is_singular can_use_cache uid wmNow
        data_out url st rl ((t, r) :: rest)
      = doRequestsLoop cached request_type uw is_singular can_use_cache uid wmNow
          (data_out ++ pageItems r) (pageNext r)
          (if can_use_cache then setEtag st uid (pyStr url) r.headers else st)
          (gateAndIssue rl t).2 rest := by
  rcases hpair : gateAndIssue rl t with ⟨b, rl1⟩
  simp only [doRequestsLoop, hurl, eq_self_iff_true, if_true, hpair,
    if_neg (of_decide_eq_false hge), pageItems, pageNext, hpages]
  rw [if_neg (by simp [h304])]

/-- The walk loop on an exhausted trace with a falsy url exits into the
persistence step. -/
theorem doRequestsLoop_exit (cached : CacheRes) (request_type uw : String)
    (is_singular can_use_cache : Bool) (uid : String) (wmNow : Int)
    (data_out : List PyVal) (url : PyVal) (st : Store) (rl : RateLimiter)
    (hurl : pyTruthy url = false) :
    doRequestsLoop cached request_type uw is_singular can_use_cache uid wmNow
        data_out url st rl []
      = doRequestsFinish cached request_type uw is_singular wmNow data_out st rl := by
  simp only [doRequestsLoop, hurl, Bool.false_eq_true, if_false]

/-- Any complete page walk funnels into the persistence step with exactly the
concatenation of the pages' items accumulated, while the document/watermark
collection is untouched during the walk itself (only validators are written
mid-walk). -/
theorem doRequestsLoop_full_walk (cached : CacheRes) (request_type uw : String)
    (is_singular can_use_cache : Bool) (uid : String) (wmNow : Int) :
    ∀ (trace : List (Int × HResp)) (data_out : List PyVal) (url : PyVal)
      (st : Store) (rl : RateLimiter),
      fullWalk trace = true → pyTruthy url = true →
      ∃ (etag1 : List PyVal) (rl1 : RateLimiter),
        doRequestsLoop cached request_type uw is_singular can_use_cache uid wmNow
            data_out url st rl trace
          = doRequestsFinish cached request_type uw is_singular wmNow
              (data_out ++ walkItems trace) ⟨st.personalCache, etag1⟩ rl1 := by
  intro trace
  induction trace with
  | nil =>
      intro data_out url st rl hwalk hurl
      simp [fullWalk] at hwalk
  | cons p rest ih =>
      obtain ⟨t, r⟩ := p
      intro data_out url st rl hwalk hurl
      simp only [fullWalk, Bool.and_eq_true] at hwalk
      obtain ⟨hp, hrest⟩ := hwalk
      simp only [isWalkPage, Bool.and_eq_true, Bool.not_eq_true'] at hp
      obtain ⟨⟨hge, h304⟩, hpag⟩ := hp
      obtain ⟨pages, hpages⟩ := Option.isSome_iff_exists.mp hpag
      rw [doRequestsLoop_page_step cached request_type uw is_singular can_use_cache uid wmNow
        data_out url st rl t r rest pages hurl hge h304 hpages]
      cases rest with
      | nil =>
          rw [Bool.not_eq_true'] at hrest
          refine ⟨(if can_use_cache then setEtag st uid (pyStr url) r.headers else st).etagDb,
                  (gateAndIssue rl t).2, ?_⟩
          rw [doRequestsLoop_exit _ _ _ _ _ _ _ _ _ _ _ hrest]
          have hsteta : (if can_use_cache then setEtag st uid (pyStr url) r.headers else st)
              = ⟨st.personalCache,
                 (if can_use_cache then setEtag st uid (pyStr url) r.headers else st).etagDb⟩ := by
            rw [← stepStore_personalCache can_use_cache st uid (pyStr url) r.headers]
          rw [hsteta]
          simp [walkItems, pageItems]
      | cons q rest2 =>
          rw [Bool.and_eq_true] at hrest
          obtain ⟨hnext, hwalk2⟩ := hrest
          obtain ⟨etag1, rl2, heq⟩ := ih (data_out ++ pageItems r) (pageNext r)
            (if can_use_cache then setEtag st uid (pyStr url) r.headers else st)
            (gateAndIssue rl t).2 hwalk2 hnext
          refine ⟨etag1, rl2, ?_⟩
          rw [heq, stepStore_personalCache]
          simp [walkItems, List.append_assoc]

/-- The Store-level persistence fold of `doRequestsFinish` acts on the
document collection only. -/
theorem finishFold_eq (request_type : String) (items : List PyVal) (st : Store) :
    items.foldl (fun s item =>
      let item1 := convertDates item
      { s with personalCache := (updateOne s.personalCache
          [("object", .str request_type), ("id", (item1.get "id").getD .none)] item1 true) }) st
      = ⟨items.foldl (fun docs item =>
            updateOne docs [("object", .str request_type),
              ("id", ((convertDates item).get "id").getD .none)] (convertDates item) true)
          st.personalCache, st.etagDb⟩ := by
  induction items generalizing st with
  | nil => rfl
  | cons it rest ih =>
      simp only [List.foldl]
      rw [ih]

/-- The persistence step, written out: every accumulated item upserted keyed
by (resource type, id), then the single url-less watermark upsert, then the
`data_out if is_singular else cached` return of api.py line 676. -/
theorem doRequestsFinish_eq (cached : CacheRes) (request_type uw : String)
    (is_singular : Bool) (wmNow : Int) (items : List PyVal) (pc etag : List PyVal)
    (rl : RateLimiter) :
    doRequestsFinish cached request_type uw is_singular wmNow items ⟨pc, etag⟩ rl
      = .ok (if is_singular then .items items else .cached cached,
             ⟨updateOne
                (items.foldl (fun docs item =>
                  updateOne docs [("object", .str request_type),
                    ("id", ((convertDates item).get "id").getD .none)] (convertDates item) true)
                  pc)
                [("object", .str "url_update")]
                (.dict [("object", .str "url_update"), ("url", .str uw), ("date", .dt wmNow)])
                true,
              etag⟩,
             rl) := by
  unfold doRequestsFinish
  rw [finishFold_eq]

/-- C2 (amended): for EVERY non-singular request compiled by
`_complex_request` whose scripted responses form one complete page walk
(following `next_url` until it is null), the engine leaves the
document/watermark collection untouched during the walk, then upserts every
accumulated item keyed by (resource type, id), then upserts the watermark
record exactly once, and returns the pre-request cached value — the lazy
filtered scan (or `None` for a non-cacheable request) — NOT the accumulated
item list. -/
theorem C2_full_page_walk (request_type : String) (kwargs : List (String × PyVal))
    (now : Int) (uid : String) (wmNow : Int) (st : Store) (rl : RateLimiter)
    (trace : List (Int × HResp))
    (hns : complexIsSingular request_type now kwargs = false)
    (hwalk : fullWalk trace = true) :
    ∃ (etag1 : List PyVal) (rl1 : RateLimiter) (canonical : String),
      complexRequest request_type kwargs now uid wmNow st rl trace
        = .ok (.cached (complexCached request_type now kwargs st),
               ⟨updateOne
                  ((walkItems trace).foldl (fun docs item =>
                    updateOne docs [("object", .str request_type),
                      ("id", ((convertDates item).get "id").getD .none)]
                      (convertDates item) true)
                    st.personalCache)
                  [("object", .str "url_update")]
                  (.dict [("object", .str "url_update"), ("url", .str canonical),
                          ("date", .dt wmNow)]) true,
                etag1⟩,
               rl1) := by
  simp only [complexRequest, doRequests, hns, Bool.false_eq_true, if_false]
  obtain ⟨etag1, rl1, heq⟩ := doRequestsLoop_full_walk
    (complexCached request_type now kwargs st) request_type
    (urlWithoutUpdateDate ("https://api.wanikani.com/v2/" ++ request_type ++ "s")
      (complexUrlParams request_type now kwargs))
    false (canUseCacheCheck kwargs) uid wmNow trace []
    (.str (("https://api.wanikani.com/v2/" ++ request_type ++ "s" ++
      (if (watermarkParams st ("https://api.wanikani.com/v2/" ++ request_type ++ "s")
            (complexUrlParams request_type now kwargs)).isEmpty then "" else "?")) ++
      String.intercalate "&" (watermarkParams st
        ("https://api.wanikani.com/v2/" ++ request_type ++ "s")
        (complexUrlParams request_type now kwargs))))
    st rl hwalk
    (pyTruthy_str_append _ _ (isEmpty_append_false _ _
      (isEmpty_append_false _ _ (isEmpty_append_false _ _ (by decide)))))
  rw [heq, doRequestsFinish_eq]
  refine ⟨etag1, rl1,
    urlWithoutUpdateDate ("https://api.wanikani.com/v2/" ++ request_type ++ "s")
      (complexUrlParams request_type now kwargs), ?_⟩
  simp

/-- Witness for C2: the concrete two-page burned-assignments walk exercises
the theorem; on its final store both items are present keyed by (resource
type, id) and there is exactly one watermark record. -/
theorem C2_full_page_walk_witness :
    (∃ (etag1 : List PyVal) (rl1 : RateLimiter) (canonical : String),
      complexRequest "assignment" burnedKwargs 0 "u1" 999 scenarioStore ⟨[]⟩
          [(0, pageOne), (1, pageTwo)]
        = .ok (.cached (complexCached "assignment" 0 burnedKwargs scenarioStore),
               ⟨updateOne
                  ((walkItems [(0, pageOne), (1, pageTwo)]).foldl (fun docs item =>
                    updateOne docs [("object", .str "assignment"),
                      ("id", ((convertDates item).get "id").getD .none)]
                      (convertDates item) true)
                    scenarioStore.personalCache)
                  [("object", .str "url_update")]
                  (.dict [("object", .str "url_update"), ("url", .str canonical),
                          ("date", .dt 999)]) true,
                etag1⟩,
               rl1)) ∧
    findOne c2FinalStore.personalCache [("object", .str "assignment"), ("id", .int 21)]
      = storedItem 21 ∧
    findOne c2FinalStore.personalCache [("object", .str "assignment"), ("id", .int 22)]
      = storedItem 22 ∧
    findDocs c2FinalStore.personalCache [("object", .str "url_update")]
      = [c2WatermarkRec] :=
  ⟨C2_full_page_walk "assignment" burnedKwargs 0 "u1" 999 scenarioStore ⟨[]⟩
      [(0, pageOne), (1, pageTwo)] rfl rfl, rfl, rfl, rfl⟩

/-- C3, evaluated at the failing scenario: after a completed walk of the
resets family its watermark exists and is read back to append an
`updated_after` fragment; a completed walk of the voice_actors family then
upserts the watermark with the url-less filter `{"object": "url_update"}`,
which matches and overwrites the resets record — afterwards the store holds
exactly one url_update record, belonging to voice_actors, and the resets
lookup finds nothing.  A walk that fails after page 1 of 2 raises before the
persistence step and leaves the store untouched. -/
theorem C3_watermark_family :
    get_resets .none .none "u1" 100 ⟨[], []⟩ ⟨[]⟩ [(0, onePageResets)]
      = .ok (.cached (.cursor [("object", .str "reset")]), c3StoreA, ⟨[0]⟩) ∧
    findOne c3StoreA.personalCache
        [("object", .str "url_update"), ("url", .str "https://api.wanikani.com/v2/resets")]
      = resetsWatermark ∧
    watermarkParams c3StoreA "https://api.wanikani.com/v2/resets" []
      = ["updated_after=" ++ quote (isoformat 100)] ∧
    get_voice_actors .none .none "u1" 200 c3StoreA ⟨[0]⟩ [(1, onePageVoiceActors)]
      = .ok (.cached (.cursor [("object", .str "voice_actor")]), c3StoreB, ⟨[0, 1]⟩) ∧
    findDocs c3StoreB.personalCache [("object", .str "url_update")]
      = [.dict [("object", .str "url_update"),
                ("url", .str "https://api.wanikani.com/v2/voice_actors"),
                ("date", .dt 200)]] ∧
    findOne c3StoreB.personalCache
        [("object", .str "url_update"), ("url", .str "https://api.wanikani.com/v2/resets")]
      = .none ∧
    get_resets .none .none "u1" 300 c3StoreA ⟨[]⟩
        [(2, resetsPageOneOfTwo), (3, ⟨500, [], .none⟩)]
      = .error (.attributeError "int object has no attribute status", c3StoreA) := by
  exact ⟨rfl, rfl, rfl, rfl, rfl, rfl, rfl⟩

end Wanikani
